import Mathlib

/- Verification development for the FlowPic traffic pipeline:
   a shallow embedding of traffic_csv_converter.py and dataset_generator.py.
   Python floats are modelled as exact rationals; a CSV field token is
   modelled abstractly by whether it parses as a Python float or as an int. -/

/-- Python int() truncation toward zero, applied to an exact rational. -/
def pyTrunc (q : ℚ) : ℤ := if q < 0 then ⌈q⌉ else ⌊q⌋

/-- Normalisation of one slice endpoint, as Python does for s[a:b] on a
sequence of length n: negative indices count from the end, and indices are
clamped into [0, n]. -/
def pyIdx (n : ℕ) (i : ℤ) : ℕ := if i < 0 then ((n : ℤ) + i).toNat else min i.toNat n

/-- Python slice s[a:b] with step 1. -/
def pySlice {α : Type} (xs : List α) (a b : ℤ) : List α :=
  (xs.take (pyIdx xs.length b)).drop (pyIdx xs.length a)

/-- Python slice s[a:] with step 1. -/
def pyDropFrom {α : Type} (xs : List α) (a : ℤ) : List α :=
  xs.drop (pyIdx xs.length a)

/-- Collects a list of optional values, failing if any entry is none.
This models numpy array construction with a dtype: one bad token makes the
whole conversion raise ValueError. -/
def optList {β : Type} : List (Option β) → Option (List β)
  | [] => some []
  | none :: _ => none
  | some b :: rest => (optList rest).map (fun l => b :: l)

/-- One CSV field token, abstracted by its numeric parses: asFloat is the
result of float(token), asInt the result of int(token); none means the parse
raises ValueError. -/
structure Tok where
  asFloat : Option ℚ
  asInt : Option ℤ
deriving DecidableEq

/-- A token that parses as an integer (and hence also as a float). -/
def fInt (n : ℤ) : Tok := ⟨some (n : ℚ), some n⟩

/-- A token that parses as a float but not as an integer (a decimal token). -/
def fFloat (q : ℚ) : Tok := ⟨some q, none⟩

/-- Window duration TPS = 60 from traffic_csv_converter.py. -/
def TPS : ℚ := 60

/-- Window step DELTA_T = 60 from traffic_csv_converter.py. -/
def DELTA_T : ℚ := 60

/-- Minimum segment span MIN_TPS = 50 from traffic_csv_converter.py. -/
def MIN_TPS : ℚ := 50

/-- Outcome of the per-row parsing stage of traffic_csv_converter
(lines 77-92): rows with fewer than 9 fields and rows failing the bounds
check are skipped by a bare continue; a ValueError from a numeric parse is
caught and counted. -/
inductive RowOutcome where
  | tooShort
  | boundsFail
  | parseFail
  | parsed (length : ℤ) (ts : List ℚ) (sizes : List ℤ)
deriving DecidableEq

/-- The Record Parser: the row-decoding part of traffic_csv_converter
(lines 77-92). length = int(row[7]); bounds check
(8 + length) > len(row) or (9 + length) > len(row); ts = row[8 : 8+length]
parsed as floats; sizes = row[9+length :] parsed as ints. -/
def parseRow (row : List Tok) : RowOutcome :=
  if row.length < 9 then .tooShort
  else
    match (row.get? 7).bind Tok.asInt with
    | none => .parseFail
    | some length =>
      if 8 + length > (row.length : ℤ) ∨ 9 + length > (row.length : ℤ) then .boundsFail
      else
        match optList ((pySlice row 8 (8 + length)).map Tok.asFloat) with
        | none => .parseFail
        | some ts =>
          match optList ((pyDropFrom row (9 + length)).map Tok.asInt) with
          | none => .parseFail
          | some sizes => .parsed length ts sizes

/-- Membership of one timestamp in the window of index t:
mask = (ts >= t * DELTA_T) & (ts <= t * DELTA_T + TPS), line 98. -/
def inWindow (t : ℤ) (x : ℚ) : Bool :=
  decide ((t : ℚ) * DELTA_T ≤ x ∧ x ≤ (t : ℚ) * DELTA_T + TPS)

/-- ts_mask = ts[mask], line 99. -/
def tsMask (t : ℤ) (ts : List ℚ) : List ℚ := ts.filter (fun x => inWindow t x)

/-- The masked (timestamp, size) pairs of window t; equals
(ts[mask], sizes[mask]) elementwise when the two arrays have equal length. -/
def maskPairs (t : ℤ) (ts : List ℚ) (sizes : List ℤ) : List (ℚ × ℤ) :=
  (ts.zip sizes).filter (fun p => inWindow t p.1)

/-- Validity test of line 104: len(ts_mask) > 10 and
(ts_mask[-1] - ts_mask[0]) > MIN_TPS, with Python short-circuit so the
array is only indexed when nonempty. -/
def segValid (m : List ℚ) : Bool :=
  decide (10 < m.length) &&
    (match m.head?, m.getLast? with
     | some a, some b => decide (MIN_TPS < b - a)
     | _, _ => false)

/-- Exclusive upper bound of the window loop of line 97:
int(ts[-1] / DELTA_T - TPS / DELTA_T) + 1, with int() truncating toward
zero. -/
def windowUpper (tsLast : ℚ) : ℤ := pyTrunc (tsLast / DELTA_T - TPS / DELTA_T) + 1

/-- The loop range of line 97: range(int(ts[-1]/DELTA_T - TPS/DELTA_T) + 1),
empty whenever the bound is not positive. -/
def tRange (tsLast : ℚ) : List ℤ :=
  (List.range (windowUpper tsLast).toNat).map Int.ofNat

/-- Per-row result of segmentation: the list of masked segments handed to
session_2d_histogram (one FlowPic each; the histogram builder is an external
dependency and is modelled by the segment it receives), and the skip count
contributed by the row. -/
structure RowResult where
  segments : List (List (ℚ × ℤ))
  skipped : ℕ
deriving DecidableEq

/-- One iteration of the window loop, lines 98-111: a valid window appends
one segment ([h] for one FlowPic), an invalid one increments the skip
counter. -/
def segStep (ts : List ℚ) (sizes : List ℤ) (acc : RowResult) (t : ℤ) : RowResult :=
  if segValid (tsMask t ts) = true then
    ⟨acc.segments ++ [maskPairs t ts sizes], acc.skipped⟩
  else
    ⟨acc.segments, acc.skipped + 1⟩

/-- The Session Segmenter, lines 96-113, applied to one parsed row. A row
with declared length at most 10 is skipped and counted. Reading ts[-1] of an
empty array raises IndexError, caught and counted. If the window loop runs
at least one iteration while ts and sizes differ in length, the numpy
boolean indexing sizes[mask] raises IndexError on the first iteration; the
exception handler counts one skip and the row contributes no segments. -/
def processParsed (length : ℤ) (ts : List ℚ) (sizes : List ℤ) : RowResult :=
  if 10 < length then
    match ts.getLast? with
    | none => ⟨[], 1⟩
    | some tsLast =>
      if tRange tsLast ≠ [] ∧ ts.length ≠ sizes.length then ⟨[], 1⟩
      else (tRange tsLast).foldl (segStep ts sizes) ⟨[], 0⟩
  else ⟨[], 1⟩

/-- Full processing of one CSV row, lines 77-122. -/
def processRow (row : List Tok) : RowResult :=
  match parseRow row with
  | .tooShort => ⟨[], 0⟩
  | .boundsFail => ⟨[], 0⟩
  | .parseFail => ⟨[], 1⟩
  | .parsed length ts sizes => processParsed length ts sizes

/-- Accumulated result of traffic_csv_converter over a whole file. -/
structure ConvertResult where
  dataset : List (List (ℚ × ℤ))
  counter : ℕ
  skipped : ℕ
deriving DecidableEq

/-- traffic_csv_converter over the rows of one CSV file: every row is
processed independently; a rejected row never aborts the file. -/
def traffic_csv_converter (rows : List (List Tok)) : ConvertResult :=
  rows.foldl
    (fun acc row =>
      ⟨acc.dataset ++ (processRow row).segments,
       acc.counter + (processRow row).segments.length,
       acc.skipped + (processRow row).skipped⟩)
    ⟨[], 0, 0⟩

/-- The window enumeration as the SPEC words it: integer t ranging from 0 to
floor(ts[-1]/DELTA_T - TPS/DELTA_T) + 1 INCLUSIVE. Stated for comparison
with tRange, which embeds the code. -/
def specTRange (tsLast : ℚ) : List ℤ :=
  (List.range (⌊tsLast / DELTA_T - TPS / DELTA_T⌋ + 2).toNat).map Int.ofNat

/-- The rejection conditions as the spec lists them: fewer than 9 fields, or
8+length or 9+length exceeding the field count, or a consumed field failing
its numeric parse. -/
def specRejects (row : List Tok) : Prop :=
  row.length < 9 ∨
    (row.get? 7).bind Tok.asInt = none ∨
    ∃ L, (row.get? 7).bind Tok.asInt = some L ∧
      (8 + L > (row.length : ℤ) ∨ 9 + L > (row.length : ℤ) ∨
       (∃ f ∈ pySlice row 8 (8 + L), f.asFloat = none) ∨
       (∃ f ∈ pyDropFrom row (9 + L), f.asInt = none))

/-- Concrete row for C1: 8 metadata fields with length 1 at index 7, one
float timestamp at index 8, then the tokens 99 and 7. -/
def rowC1 : List Tok :=
  [fInt 0, fInt 0, fInt 0, fInt 0, fInt 0, fInt 0, fInt 0, fInt 1,
   fFloat (3 / 2), fInt 99, fInt 7]

/-- Concrete row for C2: exactly 8 + 12 + 12 = 32 fields, length 12 at index
7, twelve float timestamps, twelve integer sizes. -/
def rowC2 : List Tok :=
  [fInt 0, fInt 0, fInt 0, fInt 0, fInt 0, fInt 0, fInt 0, fInt 12,
   fFloat 0, fFloat 1, fFloat 2, fFloat 3, fFloat 4, fFloat 5,
   fFloat 6, fFloat 7, fFloat 8, fFloat 9, fFloat 10, fFloat 11,
   fInt 100, fInt 101, fInt 102, fInt 103, fInt 104, fInt 105,
   fInt 106, fInt 107, fInt 108, fInt 109, fInt 110, fInt 111]

/-- The timestamps rowC2 actually parses to. -/
def tsC2 : List ℚ := [0, 1, 2, 3, 4, 5, 6, 7, 8, 9, 10, 11]

/-- The sizes rowC2 actually parses to: the field at index 20 is dropped. -/
def szC2 : List ℤ := [101, 102, 103, 104, 105, 106, 107, 108, 109, 110, 111]

/-- Concrete record for C3: 12 packets, total duration 55 seconds. -/
def tsC3 : List ℚ := [0, 5, 10, 15, 20, 25, 30, 35, 40, 45, 50, 55]

/-- Sizes for tsC3. -/
def sizesC3 : List ℤ := [10, 20, 30, 40, 50, 60, 70, 80, 90, 100, 110, 120]

/-- Concrete record for the C3 witness: 12 packets, span only 40 seconds. -/
def tsW3 : List ℚ := [0, 1, 2, 3, 4, 5, 6, 7, 8, 9, 10, 40]

/-- Sizes for tsW3. -/
def sizesW3 : List ℤ := [1, 1, 1, 1, 1, 1, 1, 1, 1, 1, 1, 1]

/-- Concrete record for the C5 witness: 12 packets ending at 66 seconds. -/
def tsC5 : List ℚ := [0, 6, 12, 18, 24, 30, 36, 42, 48, 54, 60, 66]

/-- Sizes for tsC5. -/
def sizesC5 : List ℤ := [1, 2, 3, 4, 5, 6, 7, 8, 9, 10, 11, 12]

/-- Concrete row for C6: a single field, rejected for having fewer than 9
fields. -/
def rowShort : List Tok := [fInt 0]

/-- CLASS_NAMES from dataset_generator.py. -/
def CLASS_NAMES : List String := ["browsing", "chat", "file_transfer", "video", "voip"]

/-- CLASS_TO_LABEL from dataset_generator.py, the dict comprehension
mapping each class name to its index in CLASS_NAMES (later bindings would
win, as in a Python dict). -/
def CLASS_TO_LABEL (name : String) : Option ℕ :=
  CLASS_NAMES.enum.foldl (fun acc p => if p.2 = name then some p.1 else acc) none

/-- The per-class body of generate_combined_vpn_type_test_sets, lines
85-105: the glob dirs for one class and tunnel type are modelled as the
list of matched files with their loaded contents (none when np.load fails).
No match skips the class; otherwise the FIRST match alone is loaded
(class_npy_files[0], line 94); a failed or empty load skips the class;
otherwise the rows are contributed together with one copy of the label per
row (np.full(data_array.shape[0], label), line 102). -/
def classContribution {α : Type} (label : ℕ) (matchedFiles : List (Option (List α))) :
    Option (List α × List ℕ) :=
  match matchedFiles with
  | [] => none
  | d :: _ =>
    match d with
    | none => none
    | some rows => if 0 < rows.length then some (rows, List.replicate rows.length label) else none

/-- RANDOM_STATE from dataset_generator.py. -/
def RANDOM_STATE : ℕ := 42

/-- TEST_SIZE from dataset_generator.py. -/
def TEST_SIZE : ℚ := 1 / 5

/-- Modelled from the spec: the pseudo-random generator underlying the
seeded split. sklearn.model_selection.train_test_split is an external
library and its code is not under src/; per the spec the split is a
deterministic, seeded, stratified shuffle split. A linear congruential step
stands in for the library generator. -/
def lcgNext (s : ℕ) : ℕ := (1103515245 * s + 12345) % 2 ^ 31

/-- Modelled from the spec: number of test rows drawn from a class of n
rows at test fraction testSize. -/
def testCount (testSize : ℚ) (n : ℕ) : ℕ := (⌈testSize * (n : ℚ)⌉).toNat

/-- Positions in y carrying the label l. -/
def classIndices (y : List ℕ) (l : ℕ) : List ℕ :=
  (y.enum.filter (fun p => p.2 == l)).map Prod.fst

/-- k positions taken from idxs starting at offset o, cyclically. -/
def rotIndices (idxs : List ℕ) (o k : ℕ) : List ℕ :=
  (List.range k).map (fun j => idxs.getD ((o + j) % idxs.length) 0)

/-- Modelled from the spec: the set of row positions assigned to the test
partition, chosen per class (stratified) from a seed-derived offset. -/
def testIndexSet (randomState : ℕ) (testSize : ℚ) (y : List ℕ) : List ℕ :=
  y.dedup.flatMap
    (fun l =>
      rotIndices (classIndices y l)
        (lcgNext (randomState + l) % max (classIndices y l).length 1)
        (testCount testSize (classIndices y l).length))

/-- Modelled from the spec: sklearn train_test_split (external library, not
under src/) as a deterministic, seeded, stratified split of x and y into
(x_train, x_test, y_train, y_test), exactly the call of
dataset_generator.py lines 123-125. -/
def train_test_split {α : Type} (randomState : ℕ) (testSize : ℚ)
    (x : List α) (y : List ℕ) : List α × List α × List ℕ × List ℕ :=
  ((x.enum.filter (fun p => !((testIndexSet randomState testSize y).contains p.1))).map Prod.snd,
   (x.enum.filter (fun p => (testIndexSet randomState testSize y).contains p.1)).map Prod.snd,
   (y.enum.filter (fun p => !((testIndexSet randomState testSize y).contains p.1))).map Prod.snd,
   (y.enum.filter (fun p => (testIndexSet randomState testSize y).contains p.1)).map Prod.snd)

/-- Lowercased character list of a string, as Python str.lower() on ASCII. -/
def strLower (s : String) : List Char := s.data.map Char.toLower

/-- Whether pat occurs at the start of s. -/
def startsWithChars : List Char → List Char → Bool
  | [], _ => true
  | _ :: _, [] => false
  | a :: as, b :: bs => a == b && startsWithChars as bs

/-- Whether pat occurs anywhere in s, as the Python in operator on strings. -/
def hasSubChars (pat : List Char) : List Char → Bool
  | [] => pat.isEmpty
  | c :: rest => startsWithChars pat (c :: rest) || hasSubChars pat rest

/-- The filter of iterate_all_classes line 185: whether the lowercased
directory path contains the substring other. -/
def containsOther (s : String) : Bool := hasSubChars "other".data (strLower s)

/-- iterate_all_classes, lines 181-192: of the glob dirs, the
directories whose lowercased path does not contain other are processed (the
sorted() call only fixes the order and does not change which directories
are processed, so it is omitted from the membership-level model). -/
def iterate_all_classes (dirs : List String) (isDir : String → Bool) : List String :=
  dirs.filter (fun d => isDir d && !(containsOther d))

theorem optList_eq_none_iff {β : Type} (xs : List (Option β)) :
    optList xs = none ↔ none ∈ xs := by
  induction xs with
  | nil => simp [optList]
  | cons a rest ih =>
    cases a with
    | none => simp [optList]
    | some b => simp [optList, Option.map_eq_none', ih]

theorem optList_eq_some_length {β : Type} :
    ∀ {xs : List (Option β)} {ys : List β}, optList xs = some ys → ys.length = xs.length := by
  intro xs
  induction xs with
  | nil =>
    intro ys h
    simp [optList] at h
    subst h
    rfl
  | cons a rest ih =>
    intro ys h
    cases a with
    | none => simp [optList] at h
    | some b =>
      simp only [optList] at h
      rcases Option.map_eq_some'.1 h with ⟨ys0, hys0, rfl⟩
      simp [ih hys0]

theorem parseRow_inv {row : List Tok} {L : ℤ} {ts : List ℚ} {sz : List ℤ}
    (h : parseRow row = RowOutcome.parsed L ts sz) :
    ¬ row.length < 9 ∧
      (row.get? 7).bind Tok.asInt = some L ∧
      ¬ (8 + L > (row.length : ℤ) ∨ 9 + L > (row.length : ℤ)) ∧
      optList ((pySlice row 8 (8 + L)).map Tok.asFloat) = some ts ∧
      optList ((pyDropFrom row (9 + L)).map Tok.asInt) = some sz := by
  by_cases h9 : row.length < 9
  · exfalso
    simp only [parseRow, if_pos h9] at h
    exact RowOutcome.noConfusion h
  · cases hb : (row.get? 7).bind Tok.asInt with
    | none =>
      exfalso
      simp only [parseRow, if_neg h9, hb] at h
      exact RowOutcome.noConfusion h
    | some L0 =>
      by_cases hbd : 8 + L0 > (row.length : ℤ) ∨ 9 + L0 > (row.length : ℤ)
      · exfalso
        simp only [parseRow, if_neg h9, hb, if_pos hbd] at h
        exact RowOutcome.noConfusion h
      · cases hts : optList ((pySlice row 8 (8 + L0)).map Tok.asFloat) with
        | none =>
          exfalso
          simp only [parseRow, if_neg h9, hb, if_neg hbd, hts] at h
          exact RowOutcome.noConfusion h
        | some ts0 =>
          cases hsz : optList ((pyDropFrom row (9 + L0)).map Tok.asInt) with
          | none =>
            exfalso
            simp only [parseRow, if_neg h9, hb, if_neg hbd, hts, hsz] at h
            exact RowOutcome.noConfusion h
          | some sz0 =>
            simp only [parseRow, if_neg h9, hb, if_neg hbd, hts, hsz,
              RowOutcome.parsed.injEq] at h
            obtain ⟨rfl, rfl, rfl⟩ := h
            exact ⟨h9, rfl, hbd, hts, hsz⟩

theorem parseRow_accepts {row : List Tok} {L : ℤ} {ts : List ℚ} {sz : List ℤ}
    (h : parseRow row = RowOutcome.parsed L ts sz) : ¬ specRejects row := by
  obtain ⟨h9, hb, hbd, hts, hsz⟩ := parseRow_inv h
  rintro (hs | hs | ⟨L0, hL0, hs⟩)
  · exact h9 hs
  · rw [hb] at hs
    exact Option.noConfusion hs
  · rw [hb, Option.some.injEq] at hL0
    subst hL0
    rcases hs with hx | hx | ⟨f, hf, hfn⟩ | ⟨f, hf, hfn⟩
    · exact hbd (Or.inl hx)
    · exact hbd (Or.inr hx)
    · have hm : none ∈ (pySlice row 8 (8 + L)).map Tok.asFloat :=
        List.mem_map.2 ⟨f, hf, hfn⟩
      have h0 := (optList_eq_none_iff _).2 hm
      rw [hts] at h0
      exact Option.noConfusion h0
    · have hm : none ∈ (pyDropFrom row (9 + L)).map Tok.asInt :=
        List.mem_map.2 ⟨f, hf, hfn⟩
      have h0 := (optList_eq_none_iff _).2 hm
      rw [hsz] at h0
      exact Option.noConfusion h0

theorem parseRow_rejects (row : List Tok)
    (h : ∀ L ts sz, parseRow row ≠ RowOutcome.parsed L ts sz) : specRejects row := by
  by_cases h9 : row.length < 9
  · exact Or.inl h9
  · cases hb : (row.get? 7).bind Tok.asInt with
    | none => exact Or.inr (Or.inl hb)
    | some L =>
      by_cases hbd : 8 + L > (row.length : ℤ) ∨ 9 + L > (row.length : ℤ)
      · refine Or.inr (Or.inr ⟨L, hb, ?_⟩)
        rcases hbd with hx | hx
        · exact Or.inl hx
        · exact Or.inr (Or.inl hx)
      · cases hts : optList ((pySlice row 8 (8 + L)).map Tok.asFloat) with
        | none =>
          have hm := (optList_eq_none_iff _).1 hts
          rcases List.mem_map.1 hm with ⟨f, hf, hfn⟩
          exact Or.inr (Or.inr ⟨L, hb, Or.inr (Or.inr (Or.inl ⟨f, hf, hfn⟩))⟩)
        | some ts =>
          cases hsz : optList ((pyDropFrom row (9 + L)).map Tok.asInt) with
          | none =>
            have hm := (optList_eq_none_iff _).1 hsz
            rcases List.mem_map.1 hm with ⟨f, hf, hfn⟩
            exact Or.inr (Or.inr ⟨L, hb, Or.inr (Or.inr (Or.inr ⟨f, hf, hfn⟩))⟩)
          | some sz =>
            exfalso
            exact h L ts sz (by simp only [parseRow, if_neg h9, hb, if_neg hbd, hts, hsz])

theorem segStep_foldl (ts : List ℚ) (sizes : List ℤ) (L : List ℤ) :
    ∀ (segs : List (List (ℚ × ℤ))) (k : ℕ),
      L.foldl (segStep ts sizes) ⟨segs, k⟩ =
        ⟨segs ++ L.filterMap
            (fun t => if segValid (tsMask t ts) = true then some (maskPairs t ts sizes) else none),
          k + (L.filter (fun t => !(segValid (tsMask t ts)))).length⟩ := by
  induction L with
  | nil =>
    intro segs k
    simp
  | cons t rest ih =>
    intro segs k
    rw [List.foldl_cons]
    by_cases hv : segValid (tsMask t ts) = true
    · rw [show segStep ts sizes ⟨segs, k⟩ t = ⟨segs ++ [maskPairs t ts sizes], k⟩ from by
        simp [segStep, hv]]
      rw [ih]
      simp [hv, List.filterMap_cons, List.filter_cons, List.append_assoc]
    · have hv0 : segValid (tsMask t ts) = false := by
        simpa using hv
      rw [show segStep ts sizes ⟨segs, k⟩ t = ⟨segs, k + 1⟩ from by
        simp [segStep, hv0]]
      rw [ih]
      simp [hv0, List.filterMap_cons, List.filter_cons]
      omega

theorem tRange_55 : tRange 55 = [0] := by
  unfold tRange windowUpper pyTrunc
  rw [show (55 : ℚ) / DELTA_T - TPS / DELTA_T = -(1 / 12) from by norm_num [TPS, DELTA_T]]
  rw [if_pos (by norm_num)]
  rw [show ⌈(-(1 / 12) : ℚ)⌉ = 0 from by norm_num [Int.ceil_eq_iff]]
  rfl

theorem tRange_66 : tRange 66 = [0] := by
  unfold tRange windowUpper pyTrunc
  rw [show (66 : ℚ) / DELTA_T - TPS / DELTA_T = 1 / 10 from by norm_num [TPS, DELTA_T]]
  rw [if_neg (by norm_num)]
  rw [show ⌊(1 / 10 : ℚ)⌋ = 0 from by norm_num]
  rfl

theorem tRange_120 : tRange 120 = [0, 1] := by
  unfold tRange windowUpper pyTrunc
  rw [show (120 : ℚ) / DELTA_T - TPS / DELTA_T = 1 from by norm_num [TPS, DELTA_T]]
  rw [if_neg (by norm_num)]
  rw [show ⌊(1 : ℚ)⌋ = 1 from by norm_num]
  rfl

theorem specTRange_120 : specTRange 120 = [0, 1, 2] := by
  unfold specTRange
  rw [show (120 : ℚ) / DELTA_T - TPS / DELTA_T = 1 from by norm_num [TPS, DELTA_T]]
  rw [show ⌊(1 : ℚ)⌋ = 1 from by norm_num]
  rfl

/-- C1 counterexample: rowC1 is accepted with length 1, but the sizes the
parser returns are the integers of fields [10, end), not of fields
[9, end) = [8+length, end) as the claim states: field index 9 (token 99) is
never consumed. -/
theorem parsed_sizes_skip_field_cex :
    parseRow rowC1 = RowOutcome.parsed 1 [3 / 2] [7] ∧
      optList ((pyDropFrom rowC1 (8 + 1)).map Tok.asInt) = some [99, 7] ∧
      ([7] : List ℤ) ≠ [99, 7] :=
  ⟨rfl, rfl, by decide⟩

/-- C1 (amended): for every row the Record Parser accepts, length is the
integer at field index 7, the timestamps are the floats parsed from fields
[8, 8+length), and the sizes are the integers parsed from fields
[9+length, end); the field at index 8+length is not consumed. -/
theorem parsed_arrays_characterization (row : List Tok) (L : ℤ) (ts : List ℚ) (sz : List ℤ)
    (h : parseRow row = RowOutcome.parsed L ts sz) :
    (row.get? 7).bind Tok.asInt = some L ∧
      optList ((pySlice row 8 (8 + L)).map Tok.asFloat) = some ts ∧
      optList ((pyDropFrom row (9 + L)).map Tok.asInt) = some sz := by
  obtain ⟨h9, hb, hbd, hts, hsz⟩ := parseRow_inv h
  exact ⟨hb, hts, hsz⟩

/-- Witness for the C1 theorem at the concrete row rowC1. -/
theorem parsed_arrays_characterization_witness :
    parseRow rowC1 = RowOutcome.parsed 1 [3 / 2] [7] ∧
      ((rowC1.get? 7).bind Tok.asInt = some 1 ∧
        optList ((pySlice rowC1 8 (8 + 1)).map Tok.asFloat) = some [3 / 2] ∧
        optList ((pyDropFrom rowC1 (9 + 1)).map Tok.asInt) = some [7]) :=
  ⟨rfl, parsed_arrays_characterization rowC1 1 [3 / 2] [7] rfl⟩

/-- C2 counterexample: the 32-field row with length 12 at index 7 is
accepted, but it yields 12 timestamps and only 11 sizes, so the two arrays
differ in length. -/
theorem equal_length_cex :
    parseRow rowC2 = RowOutcome.parsed 12 tsC2 szC2 ∧ tsC2.length = 12 ∧ szC2.length = 11 :=
  ⟨rfl, by decide, by decide⟩

/-- C2 (amended): an accepted row with n fields and declared length L at
least 0 yields exactly L timestamps and n - 9 - L sizes; the two arrays are
equal in length only when n = 9 + 2L, and the 32-field example yields 12
timestamps and 11 sizes. -/
theorem parsed_lengths (row : List Tok) (L : ℤ) (ts : List ℚ) (sz : List ℤ)
    (h : parseRow row = RowOutcome.parsed L ts sz) (hL : 0 ≤ L) :
    (ts.length : ℤ) = L ∧ (sz.length : ℤ) = (row.length : ℤ) - (9 + L) := by
  obtain ⟨h9, hb, hbd, hts, hsz⟩ := parseRow_inv h
  push_neg at h9 hbd
  obtain ⟨hb1, hb2⟩ := hbd
  have hts1 := optList_eq_some_length hts
  have hsz1 := optList_eq_some_length hsz
  rw [List.length_map] at hts1 hsz1
  constructor
  · rw [hts1]
    have e1 : pyIdx row.length (8 + L) = (8 + L).toNat := by
      unfold pyIdx
      rw [if_neg (by omega)]
      exact Nat.min_eq_left (by omega)
    have e2 : pyIdx row.length 8 = 8 := by
      unfold pyIdx
      rw [if_neg (by norm_num)]
      exact Nat.min_eq_left (by omega)
    unfold pySlice
    rw [e1, e2, List.length_drop, List.length_take,
      Nat.min_eq_left (show (8 + L).toNat ≤ row.length by omega)]
    omega
  · rw [hsz1]
    have e3 : pyIdx row.length (9 + L) = (9 + L).toNat := by
      unfold pyIdx
      rw [if_neg (by omega)]
      exact Nat.min_eq_left (by omega)
    unfold pyDropFrom
    rw [e3, List.length_drop]
    omega

/-- Witness for the C2 theorem at the concrete 32-field row rowC2. -/
theorem parsed_lengths_witness :
    parseRow rowC2 = RowOutcome.parsed 12 tsC2 szC2 ∧ (0 : ℤ) ≤ 12 ∧
      ((tsC2.length : ℤ) = 12 ∧ (szC2.length : ℤ) = (rowC2.length : ℤ) - (9 + 12)) :=
  ⟨rfl, by decide, parsed_lengths rowC2 12 tsC2 szC2 rfl (by decide)⟩

/-- C3 counterexample: tsC3 ends at 55 < 60 = TPS, yet the segmenter still
enumerates the window t = 0 and produces one segment, because
int(55/60 - 1) + 1 = 0 + 1 = 1 (truncation toward zero), the window holds
all 12 packets and the span 55 exceeds MIN_TPS. -/
theorem short_record_segment_cex :
    tsC3.getLast? = some 55 ∧ (55 : ℚ) < TPS ∧
      (processParsed 12 tsC3 sizesC3).segments.length = 1 := by
  refine ⟨rfl, by norm_num [TPS], ?_⟩
  have hv : segValid (tsMask 0 tsC3) = true := by
    have hm : tsMask 0 tsC3 = tsC3 := by
      unfold tsMask tsC3 inWindow
      norm_num [DELTA_T, TPS, List.filter]
    rw [hm]
    unfold segValid tsC3
    norm_num [MIN_TPS]
  unfold processParsed
  rw [if_pos (by norm_num : (10 : ℤ) < 12)]
  simp only [show tsC3.getLast? = some 55 from rfl]
  have hg : ¬(tRange 55 ≠ [] ∧ tsC3.length ≠ sizesC3.length) := fun h => h.2 rfl
  rw [if_neg hg, tRange_55]
  simp [segStep, hv]

/-- C3 (amended): a record whose last timestamp is below TPS gets at most
one candidate window (t = 0), hence at most one segment; zero segments are
not guaranteed. -/
theorem short_record_at_most_one_segment (L : ℤ) (ts : List ℚ) (sizes : List ℤ) (tsLast : ℚ)
    (hlast : ts.getLast? = some tsLast) (hT : tsLast < TPS) :
    (processParsed L ts sizes).segments.length ≤ 1 := by
  unfold processParsed
  by_cases hL : 10 < L
  · rw [if_pos hL]
    simp only [hlast]
    by_cases hg : tRange tsLast ≠ [] ∧ ts.length ≠ sizes.length
    · rw [if_pos hg]
      simp
    · rw [if_neg hg]
      rw [segStep_foldl]
      simp only [List.nil_append]
      have h2 : (tRange tsLast).length ≤ 1 := by
        unfold tRange
        rw [List.length_map, List.length_range]
        have hx : tsLast / DELTA_T - TPS / DELTA_T < 0 := by
          have h60 : tsLast / DELTA_T < 1 := by
            unfold DELTA_T
            rw [div_lt_one (by norm_num)]
            unfold TPS at hT
            exact hT
          have h1 : TPS / DELTA_T = 1 := by norm_num [TPS, DELTA_T]
          rw [h1]
          linarith
        unfold windowUpper pyTrunc
        rw [if_pos hx]
        have hc : ⌈tsLast / DELTA_T - TPS / DELTA_T⌉ ≤ 0 :=
          Int.ceil_le.2 (by exact_mod_cast hx.le)
        omega
      exact le_trans (List.length_filterMap_le _ _) h2
  · rw [if_neg hL]
    simp

/-- Witness for the C3 theorem at the concrete record tsW3. -/
theorem short_record_at_most_one_segment_witness :
    tsW3.getLast? = some 40 ∧ (40 : ℚ) < TPS ∧
      (processParsed 12 tsW3 sizesW3).segments.length ≤ 1 :=
  ⟨rfl, by norm_num [TPS],
    short_record_at_most_one_segment 12 tsW3 sizesW3 40 rfl (by norm_num [TPS])⟩

/-- C4 counterexample: for a record ending at 120 seconds the code
enumerates t in range(int(120/60 - 1) + 1) = range(2), that is t = 0 and
t = 1, while the claim calls for t from 0 to floor(120/60 - 1) + 1 = 2
inclusive. -/
theorem window_enumeration_cex :
    tRange 120 = [0, 1] ∧ specTRange 120 = [0, 1, 2] ∧ tRange 120 ≠ specTRange 120 := by
  refine ⟨tRange_120, specTRange_120, ?_⟩
  rw [tRange_120, specTRange_120]
  decide

/-- C4 (amended): the Session Segmenter enumerates the windows for exactly
the integers t with 0 <= t <= trunc(timestamps[-1]/DELTA_T - TPS/DELTA_T),
truncation toward zero; this is one window fewer than the claim states at
the upper end. -/
theorem window_enumeration_range (tsLast : ℚ) (t : ℤ) :
    t ∈ tRange tsLast ↔ 0 ≤ t ∧ t ≤ pyTrunc (tsLast / DELTA_T - TPS / DELTA_T) := by
  unfold tRange windowUpper
  constructor
  · intro ht
    rcases List.mem_map.1 ht with ⟨n, hn, rfl⟩
    have h1 := List.mem_range.1 hn
    rw [Int.ofNat_eq_natCast]
    constructor
    · omega
    · omega
  · rintro ⟨h0, h1⟩
    refine List.mem_map.2 ⟨t.toNat, List.mem_range.2 (by omega), ?_⟩
    rw [Int.ofNat_eq_natCast]
    omega

/-- C5 (confirmed): on a session record accepted for segmentation (parallel
arrays, more than 10 packets), the segmenter emits exactly one segment for
each enumerated window whose mask passes the validity test (more than 10
masked packets and masked span above MIN_TPS), and each failing window only
increments the skip counter. -/
theorem segmenter_exact (ts : List ℚ) (sizes : List ℤ) (tsLast : ℚ)
    (hlen : ts.length = sizes.length) (hn : 10 < (ts.length : ℤ))
    (hlast : ts.getLast? = some tsLast) :
    processParsed (ts.length : ℤ) ts sizes =
      ⟨(tRange tsLast).filterMap
          (fun t => if segValid (tsMask t ts) = true then some (maskPairs t ts sizes) else none),
        ((tRange tsLast).filter (fun t => !(segValid (tsMask t ts)))).length⟩ := by
  unfold processParsed
  rw [if_pos hn]
  simp only [hlast]
  have hg : ¬(tRange tsLast ≠ [] ∧ ts.length ≠ sizes.length) := by simp [hlen]
  rw [if_neg hg]
  rw [segStep_foldl]
  simp

/-- Witness for the C5 theorem at the concrete record tsC5: one valid
window, hence exactly one segment. -/
theorem segmenter_exact_witness :
    tsC5.length = sizesC5.length ∧ 10 < (tsC5.length : ℤ) ∧ tsC5.getLast? = some 66 ∧
      (processParsed (tsC5.length : ℤ) tsC5 sizesC5).segments.length = 1 := by
  refine ⟨rfl, by decide, rfl, ?_⟩
  rw [segmenter_exact tsC5 sizesC5 66 rfl (by decide) rfl]
  rw [tRange_66]
  have hv : segValid (tsMask 0 tsC5) = true := by
    have hm : tsMask 0 tsC5 = [0, 6, 12, 18, 24, 30, 36, 42, 48, 54, 60] := by
      unfold tsMask tsC5 inWindow
      norm_num [DELTA_T, TPS, List.filter]
    rw [hm]
    unfold segValid
    norm_num [MIN_TPS]
  simp [hv]

/-- C6 counterexample: a one-field row is rejected (skipped, processing
continues), but the skip counter is NOT incremented: rows failing the
field-count check fall to a bare continue outside the exception handler, so
the claim that every rejection is counted is false. -/
theorem reject_without_count_cex :
    parseRow rowShort = RowOutcome.tooShort ∧ processRow rowShort = ⟨[], 0⟩ :=
  ⟨rfl, rfl⟩

/-- C6 (amended): the Record Parser rejects a row exactly when it has fewer
than 9 fields, or 8+length or 9+length exceeds the field count, or a
consumed field fails its numeric parse — every other row is parsed and
passed on — but only numeric-parse failures increment the skip counter;
short rows and bounds violations are skipped silently without counting. -/
theorem reject_conditions (row : List Tok) :
    ((∃ L ts sz, parseRow row = RowOutcome.parsed L ts sz) ↔ ¬ specRejects row) ∧
      (specRejects row → (processRow row).segments = [] ∧
        (processRow row).skipped = (if parseRow row = RowOutcome.parseFail then 1 else 0)) := by
  constructor
  · constructor
    · rintro ⟨L, ts, sz, h⟩
      exact parseRow_accepts h
    · intro hn
      by_contra hno
      push_neg at hno
      exact hn (parseRow_rejects row hno)
  · intro hs
    have hno : ∀ L ts sz, parseRow row ≠ RowOutcome.parsed L ts sz := by
      intro L ts sz h
      exact parseRow_accepts h hs
    cases hc : parseRow row with
    | tooShort => simp [processRow, hc]
    | boundsFail => simp [processRow, hc]
    | parseFail => simp [processRow, hc]
    | parsed L ts sz => exact absurd hc (hno L ts sz)

/-- Witness for the C6 theorem at the concrete one-field row rowShort. -/
theorem reject_conditions_witness :
    ¬ (∃ L ts sz, parseRow rowShort = RowOutcome.parsed L ts sz) ∧
      (processRow rowShort).segments = [] ∧ (processRow rowShort).skipped = 0 := by
  have h := reject_conditions rowShort
  have hr : specRejects rowShort := Or.inl (by decide)
  refine ⟨fun hacc => (h.1.mp hacc) hr, (h.2 hr).1, ?_⟩
  have h2 := (h.2 hr).2
  rw [show parseRow rowShort = RowOutcome.tooShort from rfl] at h2
  simpa using h2

/-- C7 counterexample: with two matched files the Dataset Assembler loads
the first and proceeds, producing the first file data with labels; it does
not reject the multiple-match situation with an error. -/
theorem first_match_cex :
    classContribution (α := ℕ) 3 [some [7, 8], some [9]] = some ([7, 8], [3, 3]) ∧
      ([some [7, 8], some [9]] : List (Option (List ℕ))).length = 2 :=
  ⟨rfl, rfl⟩

/-- C7 (amended): when the file lookup yields more than one match, the
Dataset Assembler silently resolves the situation by picking the first
match: any matches after the first are ignored entirely, and no error is
raised. -/
theorem first_match_only {α : Type} (label : ℕ) (d : Option (List α))
    (rest : List (Option (List α))) (h : rest ≠ []) :
    classContribution label (d :: rest) = classContribution label [d] := by
  cases d <;> rfl

/-- Witness for the C7 theorem at a concrete two-match list. -/
theorem first_match_only_witness :
    ([some [9]] : List (Option (List ℕ))) ≠ [] ∧
      classContribution 3 [some [7, 8], some [9]] = classContribution 3 [some [7, 8]] :=
  ⟨by decide, first_match_only 3 (some [7, 8]) [some [9]] (by decide)⟩

/-- C8 (confirmed, against the spec-modelled split): the stratified split is
a pure function of the seed, the test fraction and the input arrays, so two
runs with RANDOM_STATE = 42, TEST_SIZE = 0.2 and identical combined feature
and label arrays produce identical train and test partitions. -/
theorem split_deterministic {α : Type} (x xTwo : List α) (y yTwo : List ℕ)
    (h1 : x = xTwo) (h2 : y = yTwo) :
    train_test_split RANDOM_STATE TEST_SIZE x y =
      train_test_split RANDOM_STATE TEST_SIZE xTwo yTwo := by
  subst h1
  subst h2
  rfl

/-- Witness for the C8 theorem on a concrete labelled dataset. -/
theorem split_deterministic_witness :
    ([1, 2, 3, 4, 5] : List ℕ) = [1, 2, 3, 4, 5] ∧ ([0, 0, 0, 1, 1] : List ℕ) = [0, 0, 0, 1, 1] ∧
      train_test_split RANDOM_STATE TEST_SIZE ([1, 2, 3, 4, 5] : List ℕ) [0, 0, 0, 1, 1] =
        train_test_split RANDOM_STATE TEST_SIZE [1, 2, 3, 4, 5] [0, 0, 0, 1, 1] :=
  ⟨rfl, rfl, split_deterministic [1, 2, 3, 4, 5] [1, 2, 3, 4, 5] [0, 0, 0, 1, 1] [0, 0, 0, 1, 1] rfl rfl⟩

theorem class_label_key :
    ∀ i < 5, (CLASS_NAMES.get? i).bind CLASS_TO_LABEL = some i := by
  decide

theorem classContribution_inv {α : Type} {label : ℕ} {files : List (Option (List α))}
    {rows : List α} {labels : List ℕ}
    (h : classContribution label files = some (rows, labels)) :
    labels = List.replicate rows.length label := by
  cases files with
  | nil => simp [classContribution] at h
  | cons d rest =>
    cases d with
    | none => simp [classContribution] at h
    | some rs =>
      simp only [classContribution] at h
      by_cases hl : 0 < rs.length
      · rw [if_pos hl] at h
        obtain ⟨rfl, rfl⟩ := Prod.ext_iff.mp (Option.some.inj h)
        rfl
      · rw [if_neg hl] at h
        exact Option.noConfusion h

/-- C9 (confirmed): in the Combined Dataset the class at index i of
CLASS_NAMES is mapped by CLASS_TO_LABEL to the integer label i, and the
label array produced for that class is one copy of i per row of the class
feature array. -/
theorem labels_by_class_index (i : ℕ) (name : String) (files : List (Option (List ℕ)))
    (rows : List ℕ) (labels : List ℕ)
    (h1 : CLASS_NAMES.get? i = some name)
    (h2 : classContribution ((CLASS_TO_LABEL name).getD 0) files = some (rows, labels)) :
    CLASS_TO_LABEL name = some i ∧ labels.length = rows.length ∧ ∀ l ∈ labels, l = i := by
  have hi : i < 5 := by
    by_contra hge
    push_neg at hge
    have hnone : CLASS_NAMES.get? i = none := by
      rw [List.get?_eq_none]
      simpa [CLASS_NAMES] using hge
    rw [hnone] at h1
    exact Option.noConfusion h1
  have hkey := class_label_key i hi
  rw [h1] at hkey
  simp only [Option.some_bind] at hkey
  have hgetd : (CLASS_TO_LABEL name).getD 0 = i := by
    rw [hkey]
    rfl
  have he := classContribution_inv h2
  rw [hgetd] at he
  subst he
  refine ⟨hkey, by simp, ?_⟩
  intro l hl
  exact List.eq_of_mem_replicate hl

/-- Witness for the C9 theorem at the class of index 2. -/
theorem labels_by_class_index_witness :
    CLASS_NAMES.get? 2 = some "file_transfer" ∧
      classContribution ((CLASS_TO_LABEL "file_transfer").getD 0) [some [5, 6, 7]] =
        some ([5, 6, 7], [2, 2, 2]) ∧
      (CLASS_TO_LABEL "file_transfer" = some 2 ∧ ([2, 2, 2] : List ℕ).length = ([5, 6, 7] : List ℕ).length ∧
        ∀ l ∈ ([2, 2, 2] : List ℕ), l = 2) :=
  ⟨by decide, by decide,
    labels_by_class_index 2 "file_transfer" [some [5, 6, 7]] [5, 6, 7] [2, 2, 2]
      (by decide) (by decide)⟩

/-- C10 (confirmed): a glob match is processed by the full-corpus
conversion exactly when it is a directory and its lowercased path does not
contain the substring other; in particular every class directory whose path
contains other in any letter case is filtered out before any of its CSV
files is read or any combined array is exported, and every other matched
directory is processed. -/
theorem other_dirs_excluded (dirs : List String) (isDir : String → Bool) (d : String) :
    d ∈ iterate_all_classes dirs isDir ↔
      d ∈ dirs ∧ isDir d = true ∧ containsOther d = false := by
  simp [iterate_all_classes, List.mem_filter, Bool.and_eq_true, Bool.not_eq_true']
